import Mathlib

/-!
Verification of the research-pipeline system: a shallow embedding of the
hybrid retriever (`src/rag/retriever.py`, `src/rag/web_search.py`), the
relevance filter (`src/agents/research_agent.py`), the critic
(`src/agents/critic_agent.py`), the summarizer and writer agents, and the
LangGraph coordinator (`src/graph/coordinator.py`).

External collaborators (the vector index, the web-search HTTP calls, the
LLM completions, the file system) are modelled as explicit parameters:
a fallible call becomes an `Except String _` value or function, standing
for "the call returned normally with this value" or "the call raised with
this message".  Scores (Python floats in [0,1]) are modelled as `ℚ`.
A Python metadata dict is modelled by its recognized keys, each `Option`-
valued where the source may leave the key absent.
-/

namespace ResearchPipeline

/-- A retrieved document: `page_content` plus the recognized metadata keys.
A key absent from the Python metadata dict is `none` (or `[]` for
`authors`, whose only producer writes a list). -/
structure Doc where
  content : String
  title : Option String := none
  authors : List String := []
  year : Option String := none
  source : Option String := none
  url : Option String := none
  snippet : Option String := none
  relevance_score : Option ℚ := none
deriving Repr, DecidableEq

/-- One hit returned by the Qdrant vector search: the stored payload
(text + metadata, reassembled into a `Doc`) and the similarity score. -/
structure Hit where
  payload : Doc
  score : ℚ
deriving Repr, DecidableEq

/-- The sort key used by `retrieve` and by `filter_by_relevance`:
`doc.metadata.get("relevance_score", 0)`. -/
def scoreKey (d : Doc) : ℚ := d.relevance_score.getD 0

/-- The comparison realised by Python stable
`documents.sort(key=..., reverse=True)`: `a` may precede `b` iff `a`
key is at least `b`. -/
def scoreGe (a b : Doc) : Prop := scoreKey b ≤ scoreKey a

instance : DecidableRel scoreGe :=
  fun a b => inferInstanceAs (Decidable (scoreKey b ≤ scoreKey a))

instance : IsTotal Doc scoreGe :=
  ⟨fun a b => (le_total (scoreKey b) (scoreKey a)).imp id id⟩

instance : IsTrans Doc scoreGe :=
  ⟨fun _ _ _ h1 h2 => le_trans h2 h1⟩

/-- Source `retriever.py` lines 93-100: each Qdrant hit becomes a `Document`
whose metadata is the stored payload metadata with `relevance_score`
set to the index score and `source` overwritten to `"database"`. -/
def mkDbDoc (h : Hit) : Doc :=
  { h.payload with relevance_score := some h.score, source := some "database" }

/-- Source `web_search.py` lines 120-128: a web document carries title, url,
snippet and `source = "web"` — and no `relevance_score` key. -/
def mkWebDoc (title url snippet content : String) : Doc :=
  { content := content, title := some title, url := some url,
    snippet := some snippet, source := some "web" }

/-- One DuckDuckGo search result (`web_search.py` `search`). -/
structure SearchResult where
  title : String
  snippet : String
  link : String
deriving Repr, DecidableEq

/-- Source `web_search.py` `search_and_extract` lines 99-141: `searchRes` is the
outcome of `self.search` (which wraps its own failures); each result
content extraction is attempted and a failing item is dropped
(`except ... continue`); a failure of the search itself propagates,
wrapped in the method own message. -/
def search_and_extract (searchRes : Except String (List SearchResult))
    (extract : SearchResult → Except String String) :
    Except String (List Doc) :=
  match searchRes with
  | .error e => .error ("Error in search and extract: " ++ e)
  | .ok results =>
      .ok (results.filterMap fun r =>
        (extract r).toOption.map fun content =>
          mkWebDoc r.title r.link r.snippet content)

/-- The list entering the sort in `retrieve`: database documents first
(in index order), then — when `include_web` — the web documents. -/
def mergedDocs (hits : List Hit) (webDocs : List Doc) (includeWeb : Bool) :
    List Doc :=
  hits.map mkDbDoc ++ (if includeWeb then webDocs else [])

/-- Source `retriever.py` `retrieve` lines 70-113: `indexRes` is the outcome of
the embedding + Qdrant search, `webRes` the outcome of
`web_search.search_and_extract` (consulted only when `includeWeb`).  Any
exception inside the `try` is re-raised wrapped in
`"Error retrieving documents: "`.  On success: concatenate, stable-sort
descending by `metadata.get("relevance_score", 0)`, truncate to `limit`. -/
def retrieve (indexRes : Except String (List Hit))
    (webRes : Except String (List Doc)) (includeWeb : Bool) (limit : Nat) :
    Except String (List Doc) :=
  match indexRes with
  | .error e => .error ("Error retrieving documents: " ++ e)
  | .ok hits =>
      match (if includeWeb then webRes else .ok []) with
      | .error e => .error ("Error retrieving documents: " ++ e)
      | .ok web =>
          .ok ((List.insertionSort scoreGe (mergedDocs hits web includeWeb)).take limit)

/-- Title normalization for the deduplication discussion: leading and
trailing whitespace removed, every character case-folded. -/
def normTitle (s : String) : String :=
  ⟨((s.data.dropWhile Char.isWhitespace).reverse.dropWhile
      Char.isWhitespace).reverse.map Char.toLower⟩

/-- Source `research_agent.py` `filter_by_relevance` lines 56-62: the list
comprehension keeping documents with
`doc.metadata.get("relevance_score", 0) > 0.5`. -/
def filter_by_relevance : List Doc → List Doc
  | [] => []
  | d :: ds =>
      if (1 : ℚ)/2 < scoreKey d then d :: filter_by_relevance ds
      else filter_by_relevance ds

/-- Source `research_agent.py` `extract_metadata` lines 77-92 as it acts on a
document metadata: the defaults dict is built, then overwritten by the
existing metadata (`metadata.update(doc.metadata)`), and the result is
written back onto the document — so each recognized key is filled with
its default exactly when it was absent. -/
def extract_metadata_update (d : Doc) : Doc :=
  { d with
    title := some (d.title.getD ""),
    year := some (d.year.getD ""),
    source := some (d.source.getD ""),
    url := some (d.url.getD ""),
    relevance_score := some (d.relevance_score.getD 0) }

/-- Source `research_agent.py` `process` lines 27-45: retrieve, filter, attach
metadata defaults; ANY exception (in particular a retrieval failure) is
caught, `"Error processing query: ..."` is appended to the AGENT own
internal error list, and `[]` is returned.  Result: (documents returned
to the coordinator, messages appended to the agent-internal state). -/
def researchProcess (retrieveRes : Except String (List Doc)) :
    List Doc × List String :=
  match retrieveRes with
  | .error e => ([], ["Error processing query: " ++ e])
  | .ok docs => ((filter_by_relevance docs).map extract_metadata_update, [])

/-- The key-findings dict extracted per summary; on an LLM or parse
failure `_extract_key_information` returns this shape with all fields
empty. -/
structure KeyInfo where
  main_question : String := ""
  methodologies : List String := []
  findings : List String := []
  limitations : List String := []
  future_work : List String := []
deriving Repr, DecidableEq

/-- One entry of the summarizer output (`summarizer_agent.py` lines
56-61). -/
structure SummaryEntry where
  title : String
  summary : String
  key_findings : KeyInfo
  metadata : Doc
deriving Repr, DecidableEq

/-- Source `_extract_key_information`: catches its own failures and falls back
to the empty-shaped dict. -/
def keyInfoOr (r : Except String KeyInfo) : KeyInfo :=
  match r with
  | .ok k => k
  | .error _ => {}

/-- Source `summarizer_agent.py` `process` lines 44-70: per document, the
map-reduce chain produces a summary (`chainRes`) and key findings are
extracted (each failure there is caught locally); if the chain itself
raises on ANY document the whole loop is abandoned and `[]` returned. -/
def summarizerProcess (chainRes : Doc → Except String String)
    (keyInfoRes : Doc → String → Except String KeyInfo)
    (docs : List Doc) : List SummaryEntry :=
  match docs.mapM (fun d =>
      (chainRes d).map fun s =>
        SummaryEntry.mk (d.title.getD "") s (keyInfoOr (keyInfoRes d s)) d) with
  | .ok l => l
  | .error _ => []

/-- The critique dict; `_generate_critique` documented fallback shape
on failure. -/
structure Critique where
  strengths : List String := []
  weaknesses : List String := []
  methodological_concerns : List String := []
  contribution : String := ""
  recommendations : List String := []
deriving Repr, DecidableEq

/-- The shared shape of `_evaluate_quality` / `_evaluate_relevance` /
`_evaluate_methodology` (`critic_agent.py` lines 93-99 etc.): parse the
LLM text as a float, clamp with `min(max(score, 0), 1)`; any exception
(LLM failure or unparseable text) yields the default `0.0`. -/
def clampScore (r : Except String ℚ) : ℚ :=
  match r with
  | .ok x => min (max x 0) 1
  | .error _ => 0

/-- Source `_generate_critique`: failure falls back to the empty critique. -/
def critiqueOr (r : Except String Critique) : Critique :=
  match r with
  | .ok c => c
  | .error _ => {}

/-- One evaluation record (`critic_agent.py` lines 44-51). -/
structure EvalEntry where
  title : String
  quality_score : ℚ
  relevance_score : ℚ
  methodology_score : ℚ
  overall_score : ℚ
  critique : Critique
deriving Repr, DecidableEq

/-- The `average_scores` aggregate (`_calculate_average_scores`). -/
structure AvgScores where
  average_quality : ℚ
  average_relevance : ℚ
  average_methodology : ℚ
  average_overall : ℚ
deriving Repr, DecidableEq

/-- The critic return value: `{"evaluations": ..., "average_scores": ...}`,
with `none` modelling the empty dict `{}`. -/
structure EvalResult where
  evaluations : List EvalEntry
  average_scores : Option AvgScores
deriving Repr, DecidableEq

/-- Source `critic_agent.py` `_calculate_average_scores` lines 219-234: the
empty dict on an empty evaluation list, else the four arithmetic means. -/
def calculate_average_scores (evals : List EvalEntry) : Option AvgScores :=
  if evals = [] then none
  else
    let n : ℚ := evals.length
    some
      { average_quality := (evals.map EvalEntry.quality_score).sum / n,
        average_relevance := (evals.map EvalEntry.relevance_score).sum / n,
        average_methodology := (evals.map EvalEntry.methodology_score).sum / n,
        average_overall := (evals.map EvalEntry.overall_score).sum / n }

/-- The LLM-call outcomes the critic consumes, one per component score
and one for the critique. -/
structure CriticOracle where
  quality : Doc → SummaryEntry → Except String ℚ
  relevance : Doc → SummaryEntry → Except String ℚ
  methodology : Doc → Except String ℚ
  critique : Doc → SummaryEntry → Except String Critique

/-- Source `critic_agent.py` `process` lines 32-63: `zip(documents, summaries)`
pairs positionally; each component score is clamped-or-defaulted inside
its own handler; the overall score is the arithmetic mean of the three. -/
def mkEvalEntry (oc : CriticOracle) (p : Doc × SummaryEntry) : EvalEntry :=
  let q := clampScore (oc.quality p.1 p.2)
  let r := clampScore (oc.relevance p.1 p.2)
  let m := clampScore (oc.methodology p.1)
  { title := p.1.title.getD "",
    quality_score := q, relevance_score := r, methodology_score := m,
    overall_score := (q + r + m) / 3,
    critique := critiqueOr (oc.critique p.1 p.2) }

/-- The body of the loop in `critic_agent.py` `process` lines 34-51:
the evaluation record for one `(document, summary)` pair, and the
assembly of the evaluations list from `zip(documents, summaries)`. -/
def criticProcess (oc : CriticOracle) (docs : List Doc)
    (summaries : List SummaryEntry) : EvalResult :=
  let evals := (docs.zip summaries).map (mkEvalEntry oc)
  { evaluations := evals, average_scores := calculate_average_scores evals }

/-- The synthesis dict with its fixed keys;
`cross_document_synthesis` documented fallback has all five empty. -/
structure Synthesis where
  common_themes : List String := []
  conflicting_findings : List String := []
  complementary_insights : List String := []
  research_gaps : List String := []
  future_directions : List String := []
deriving Repr, DecidableEq

/-- Source `summarizer_agent.py` `cross_document_synthesis` lines 123-159:
the LLM evaluated dict on success, the empty-shaped default on any
failure.  Never raises. -/
def cross_document_synthesis (synthRes : Except String Synthesis) : Synthesis :=
  match synthRes with
  | .ok s => s
  | .error _ => {}

/-- One reference entry (`writer_agent.py` `_generate_references`). -/
structure RefEntry where
  title : String
  authors : List String
  year : String
  source : String
  url : String
deriving Repr, DecidableEq

/-- Source `_generate_references` lines 312-322: one entry per document, no
filtering, each field defaulted when absent. -/
def mkRef (d : Doc) : RefEntry :=
  { title := d.title.getD "", authors := d.authors, year := d.year.getD "",
    source := d.source.getD "", url := d.url.getD "" }

/-- The compiled report (`writer_agent.py` lines 70-80).  The
LLM-generated sections are kept as the raw text the model returned
(or the section documented default on failure). -/
structure Report where
  title : String
  date : String
  query : String
  executive_summary : String
  methodology : String
  findings : String
  analysis : String
  recommendations : String
  references : List RefEntry
deriving Repr, DecidableEq

/-- The writer per-section LLM outcomes plus the clock and the save
outcome. -/
structure WriterOracle where
  execSummary : Except String String
  methodologySec : Except String String
  findingsSec : Except String String
  analysisSec : Except String String
  recommendationsSec : Except String String
  saveRes : Except String String
  today : String

/-- A section generator local handler: the produced text, or the
section default on failure. -/
def sectionOr (dflt : String) (r : Except String String) : String :=
  match r with
  | .ok s => s
  | .error _ => dflt

/-- Source `writer_agent.py` `process` lines 47-92: every section generator and
`_save_report` catch their own failures and fall back to a default, so
the report is always assembled and returned. -/
def writerProcess (oc : WriterOracle) (query : String) (docs : List Doc) :
    Report :=
  { title := "Research Report: " ++ query,
    date := oc.today,
    query := query,
    executive_summary := sectionOr "" oc.execSummary,
    methodology := sectionOr "" oc.methodologySec,
    findings := sectionOr "" oc.findingsSec,
    analysis := sectionOr "" oc.analysisSec,
    recommendations := sectionOr "" oc.recommendationsSec,
    references := docs.map mkRef }

/-- The LangGraph pipeline state (`coordinator.py` `ResearchState`).
`none` models a field still holding its initial empty dict `{}`. -/
structure ResearchState where
  query : String
  documents : List Doc
  summaries : List SummaryEntry
  evaluations : Option EvalResult
  synthesis : Option Synthesis
  report : Option Report
  errors : List String
deriving Repr, DecidableEq

/-- Source `coordinator.py` `process_query` lines 125-133: the initial state. -/
def initialState (query : String) : ResearchState :=
  { query := query, documents := [], summaries := [], evaluations := none,
    synthesis := none, report := none, errors := [] }

/-- Source `_research_node` lines 64-70: on success write `documents`; on an
exception append its message to `errors` and touch nothing else. -/
def research_node (call : Except String (List Doc)) (s : ResearchState) :
    ResearchState :=
  match call with
  | .ok docs => { s with documents := docs }
  | .error e => { s with errors := s.errors ++ [e] }

/-- Source `_summarize_node` lines 72-78. -/
def summarize_node (call : Except String (List SummaryEntry))
    (s : ResearchState) : ResearchState :=
  match call with
  | .ok xs => { s with summaries := xs }
  | .error e => { s with errors := s.errors ++ [e] }

/-- Source `_evaluate_node` lines 80-89. -/
def evaluate_node (call : Except String EvalResult) (s : ResearchState) :
    ResearchState :=
  match call with
  | .ok ev => { s with evaluations := some ev }
  | .error e => { s with errors := s.errors ++ [e] }

/-- Source `_synthesize_node` lines 91-99. -/
def synthesize_node (call : Except String Synthesis) (s : ResearchState) :
    ResearchState :=
  match call with
  | .ok sy => { s with synthesis := some sy }
  | .error e => { s with errors := s.errors ++ [e] }

/-- Source `_write_node` lines 101-113. -/
def write_node (call : Except String Report) (s : ResearchState) :
    ResearchState :=
  match call with
  | .ok r => { s with report := some r }
  | .error e => { s with errors := s.errors ++ [e] }

/-- All capability-call outcomes one pipeline run consumes. -/
structure Oracles where
  retrieveRes : Except String (List Doc)
  chainRes : Doc → Except String String
  keyInfoRes : Doc → String → Except String KeyInfo
  critic : CriticOracle
  synthRes : Except String Synthesis
  writer : WriterOracle

/-- Source `coordinator.py`: the compiled linear graph
research → summarize → evaluate → synthesize → write applied to the
initial state.  Each agent `process` catches every exception
internally, so every node receives a normal (`.ok`) return. -/
def runPipeline (oc : Oracles) (query : String) : ResearchState :=
  let s0 := initialState query
  let s1 := research_node (.ok (researchProcess oc.retrieveRes).1) s0
  let s2 := summarize_node
    (.ok (summarizerProcess oc.chainRes oc.keyInfoRes s1.documents)) s1
  let s3 := evaluate_node
    (.ok (criticProcess oc.critic s2.documents s2.summaries)) s2
  let s4 := synthesize_node (.ok (cross_document_synthesis oc.synthRes)) s3
  let s5 := write_node (.ok (writerProcess oc.writer query s4.documents)) s4
  s5

/-- A pipeline run whose retrieval stage failed: the Qdrant search (or
the embedding call) raised with message `e`, every other capability as
in `oc`. -/
def failedRun (oc : Oracles) (q e : String) : ResearchState :=
  runPipeline { oc with retrieveRes := .error e } q

/- Concrete sample data used to instantiate the general theorems. -/

/-- A database hit used in concrete instantiations. -/
def hitA : Hit := { payload := { content := "p", title := some "DB Doc" }, score := mkRat 9 10 }

/-- A database hit titled `"Transformers"` with score 0.8. -/
def hitT1 : Hit := { payload := { content := "c1", title := some "Transformers" }, score := mkRat 4 5 }

/-- A database hit titled `"transformers "` with score 0.55. -/
def hitT2 : Hit := { payload := { content := "c2", title := some "transformers " }, score := mkRat 11 20 }

/-- A concrete web search result. -/
def webResultT : SearchResult := { title := "Attention", snippet := "s", link := "example.com" }

/-- The document `search_and_extract` builds from `webResultT` when its
page extraction succeeds with text `"page text"`. -/
def webDocT : Doc := mkWebDoc "Attention" "example.com" "s" "page text"

/-- A document scoring exactly 0.5. -/
def docHalf : Doc := { content := "h", relevance_score := some ((1 : ℚ)/2) }

/-- A document scoring 0.8. -/
def docHigh : Doc := { content := "g", relevance_score := some ((4 : ℚ)/5) }

/-- A document fed to the critic in concrete instantiations. -/
def docW : Doc := { content := "w", title := some "Doc" }

/-- A summary entry paired with `docW`. -/
def sumW : SummaryEntry :=
  { title := "Doc", summary := "sum", key_findings := {}, metadata := docW }

/-- A critic oracle whose three scoring calls parse as 0.7, 0.8, 0.9 and
whose critique call fails. -/
def ocW : CriticOracle :=
  { quality := fun _ _ => .ok (mkRat 7 10),
    relevance := fun _ _ => .ok (mkRat 4 5),
    methodology := fun _ => .ok (mkRat 9 10),
    critique := fun _ _ => .error "llm down" }

/-- A full oracle set for a run where the vector index is unreachable
and every LLM call fails. -/
def ocFail : Oracles :=
  { retrieveRes := .error "Error retrieving documents: index unreachable",
    chainRes := fun _ => .error "llm down",
    keyInfoRes := fun _ _ => .error "llm down",
    critic := { quality := fun _ _ => .error "llm down",
                relevance := fun _ _ => .error "llm down",
                methodology := fun _ => .error "llm down",
                critique := fun _ _ => .error "llm down" },
    synthRes := .error "llm down",
    writer := { execSummary := .error "llm down",
                methodologySec := .error "llm down",
                findingsSec := .error "llm down",
                analysisSec := .error "llm down",
                recommendationsSec := .error "llm down",
                saveRes := .error "disk full",
                today := "2026-10-12" } }

/-- The Boolean form of the relevance-filter predicate. -/
def relevantb (d : Doc) : Bool := decide ((1 : ℚ)/2 < scoreKey d)

/- Helper lemmas (shared; not tied to a single claim). -/

theorem filter_by_relevance_eq_filter (docs : List Doc) :
    filter_by_relevance docs = docs.filter relevantb := by
  induction docs with
  | nil => rfl
  | cons d ds ih =>
      by_cases h : (1 : ℚ)/2 < scoreKey d <;>
        simp [filter_by_relevance, List.filter_cons, relevantb, h, ih]

theorem filter_score_orderedInsert (q : ℚ) (x : Doc) (l : List Doc) :
    (l.orderedInsert scoreGe x).filter (fun d => decide (scoreKey d = q)) =
      if scoreKey x = q then
        x :: l.filter (fun d => decide (scoreKey d = q))
      else l.filter (fun d => decide (scoreKey d = q)) := by
  induction l with
  | nil =>
      by_cases h : scoreKey x = q <;> simp [List.orderedInsert, h]
  | cons y ys ih =>
      by_cases hr : scoreGe x y
      · by_cases h : scoreKey x = q <;>
          simp [List.orderedInsert, hr, List.filter_cons, h]
      · have hlt : scoreKey x < scoreKey y := lt_of_not_le hr
        by_cases h : scoreKey x = q
        · have hy : ¬ scoreKey y = q := by
            intro hyq; exact absurd (h ▸ hyq ▸ rfl : scoreKey y = scoreKey x)
              (ne_of_gt hlt)
          simp [List.orderedInsert, hr, List.filter_cons, hy, ih, h]
        · by_cases hy : scoreKey y = q <;>
            simp [List.orderedInsert, hr, List.filter_cons, hy, ih, h]

theorem filter_score_insertionSort (q : ℚ) (l : List Doc) :
    (List.insertionSort scoreGe l).filter (fun d => decide (scoreKey d = q)) =
      l.filter (fun d => decide (scoreKey d = q)) := by
  induction l with
  | nil => rfl
  | cons d ds ih =>
      by_cases h : scoreKey d = q <;>
        simp [List.insertionSort, filter_score_orderedInsert, h,
          List.filter_cons, ih]

theorem clampScore_nonneg (r : Except String ℚ) : 0 ≤ clampScore r := by
  cases r with
  | error _ => exact le_refl 0
  | ok x => exact le_min (le_max_right x 0) zero_le_one

theorem clampScore_le_one (r : Except String ℚ) : clampScore r ≤ 1 := by
  cases r with
  | error _ => exact zero_le_one
  | ok x => exact min_le_right _ 1

/- Claim theorems. -/

/-- C1: for every pipeline stage and every input state, if the stage
underlying agent call raises with message `e`, the engine does not stop
the pipeline: the returned state equals the input state except that the
one message `e` is appended to `errors`, and in particular the stage
owned field keeps its prior value. -/
theorem stage_error_isolation (s : ResearchState) (e : String) :
    research_node (.error e) s = { s with errors := s.errors ++ [e] } ∧
    summarize_node (.error e) s = { s with errors := s.errors ++ [e] } ∧
    evaluate_node (.error e) s = { s with errors := s.errors ++ [e] } ∧
    synthesize_node (.error e) s = { s with errors := s.errors ++ [e] } ∧
    write_node (.error e) s = { s with errors := s.errors ++ [e] } ∧
    (research_node (.error e) s).documents = s.documents ∧
    (summarize_node (.error e) s).summaries = s.summaries ∧
    (evaluate_node (.error e) s).evaluations = s.evaluations ∧
    (synthesize_node (.error e) s).synthesis = s.synthesis ∧
    (write_node (.error e) s).report = s.report :=
  ⟨rfl, rfl, rfl, rfl, rfl, rfl, rfl, rfl, rfl, rfl⟩

/-- C6: the relevance filter keeps exactly the documents whose
`relevance_score` (0 when absent) is strictly greater than 0.5 — a
document scoring exactly 0.5 is excluded, an unscored document is
excluded — and the survivors keep their relative order (the output is a
sublist of the input). -/
theorem filter_by_relevance_spec (docs : List Doc) :
    (filter_by_relevance docs).Sublist docs ∧
    (∀ d, d ∈ filter_by_relevance docs ↔
      d ∈ docs ∧ (1 : ℚ)/2 < scoreKey d) ∧
    (∀ d, d ∈ docs → d.relevance_score = some ((1 : ℚ)/2) →
      d ∉ filter_by_relevance docs) ∧
    (∀ d, d ∈ docs → d.relevance_score = none →
      d ∉ filter_by_relevance docs) := by
  rw [filter_by_relevance_eq_filter]
  refine ⟨List.filter_sublist docs, ?_, ?_, ?_⟩
  · intro d
    simp [List.mem_filter, relevantb]
  · intro d _ hs hmem
    have := (List.mem_filter.mp hmem).2
    rw [relevantb, scoreKey, hs] at this
    simp at this
  · intro d _ hs hmem
    have := (List.mem_filter.mp hmem).2
    rw [relevantb, scoreKey, hs] at this
    simp at this
    exact absurd this (by norm_num)

/-- C7: the relevance filter is idempotent. -/
theorem filter_by_relevance_idempotent (docs : List Doc) :
    filter_by_relevance (filter_by_relevance docs) = filter_by_relevance docs := by
  rw [filter_by_relevance_eq_filter, filter_by_relevance_eq_filter,
    List.filter_filter]
  simp [Bool.and_self]

theorem retrieve_ok_eq (hits : List Hit) (webDocs : List Doc)
    (includeWeb : Bool) (limit : Nat) (out : List Doc)
    (h : retrieve (.ok hits) (.ok webDocs) includeWeb limit = .ok out) :
    out =
      (List.insertionSort scoreGe (mergedDocs hits webDocs includeWeb)).take
        limit := by
  cases includeWeb
  · injection h with h1
    exact h1.symm
  · injection h with h1
    exact h1.symm

/-- C8: for every combination of index hits and web results, a
successful `retrieve` returns at most `limit` documents, sorted
non-increasing by `relevance_score` (a missing score counting as 0), and
stably: for every score value, the output entries carrying that score
are a prefix of the entries carrying it in discovery order — database
documents first, then web documents. -/
theorem retrieve_sorted_bounded_stable (hits : List Hit) (webDocs : List Doc)
    (includeWeb : Bool) (limit : Nat) (out : List Doc)
    (h : retrieve (.ok hits) (.ok webDocs) includeWeb limit = .ok out) :
    out.length ≤ limit ∧
    out.Pairwise (fun a b => scoreKey b ≤ scoreKey a) ∧
    ∀ q : ℚ, out.filter (fun d => decide (scoreKey d = q)) <+:
      (mergedDocs hits webDocs includeWeb).filter
        (fun d => decide (scoreKey d = q)) := by
  have hout := retrieve_ok_eq hits webDocs includeWeb limit out h
  subst hout
  refine ⟨?_, ?_, ?_⟩
  · rw [List.length_take]
    exact min_le_left _ _
  · exact List.Pairwise.sublist (List.take_sublist _ _)
      (List.sorted_insertionSort scoreGe _)
  · intro q
    have h1 := List.IsPrefix.filter (fun d => decide (scoreKey d = q))
      (List.take_prefix limit
        (List.insertionSort scoreGe (mergedDocs hits webDocs includeWeb)))
    rwa [filter_score_insertionSort] at h1

/-- Witness for C8 at a concrete input: one hit, no web, limit 5. -/
theorem retrieve_sorted_bounded_stable_witness :
    ([mkDbDoc hitA] : List Doc).length ≤ 5 :=
  (retrieve_sorted_bounded_stable [hitA] [] false 5 [mkDbDoc hitA] rfl).1

/-- C2 is false on the code: `retrieve` performs no deduplication.  Two
database hits titled `"Transformers"` (score 0.8) and `"transformers "`
(score 0.55) — whose titles collide after trimming and case-folding —
both appear in the output, unmerged. -/
theorem retrieve_dedup_counterexample :
    retrieve (.ok [hitT1, hitT2]) (.ok []) false 10 =
      .ok [mkDbDoc hitT1, mkDbDoc hitT2] ∧
    normTitle ((mkDbDoc hitT1).title.getD "") =
      normTitle ((mkDbDoc hitT2).title.getD "") ∧
    mkDbDoc hitT1 ≠ mkDbDoc hitT2 :=
  ⟨rfl, by decide, by decide⟩

/-- C2 amended: no merging of colliding titles occurs — a successful
`retrieve` with web included returns exactly
`min(limit, #index hits + #web documents)` entries regardless of title
collisions. -/
theorem retrieve_no_dedup (hits : List Hit) (webDocs : List Doc)
    (limit : Nat) (out : List Doc)
    (h : retrieve (.ok hits) (.ok webDocs) true limit = .ok out) :
    out.length = min limit (hits.length + webDocs.length) := by
  have hout := retrieve_ok_eq hits webDocs true limit out h
  subst hout
  rw [List.length_take, (List.perm_insertionSort scoreGe _).length_eq]
  simp [mergedDocs]

/-- Witness for the amended C2 at the Transformers example: two
colliding hits, no merge, two entries. -/
theorem retrieve_no_dedup_witness :
    ([mkDbDoc hitT1, mkDbDoc hitT2] : List Doc).length =
      min 10 ([hitT1, hitT2].length + ([] : List Doc).length) :=
  retrieve_no_dedup [hitT1, hitT2] [] 10 [mkDbDoc hitT1, mkDbDoc hitT2] rfl

/-- C3 is false on the code: a web-sourced document enters the
merge/sort step of `retrieve` with NO relevance score at all — neither
ranker-scored nor a neutral default. -/
theorem web_unscored_counterexample :
    search_and_extract (.ok [webResultT]) (fun _ => .ok "page text") =
      .ok [webDocT] ∧
    webDocT.relevance_score = none ∧
    retrieve (.ok []) (.ok [webDocT]) true 10 = .ok [webDocT] :=
  ⟨rfl, rfl, rfl⟩

/-- C3 amended: every document produced by `search_and_extract` carries
no `relevance_score` key; the merge/sort step therefore treats it as
score 0 (the sort default), not as a neutral scored value. -/
theorem web_docs_unscored (results : List SearchResult)
    (extract : SearchResult → Except String String) (out : List Doc)
    (h : search_and_extract (.ok results) extract = .ok out) :
    ∀ d ∈ out, d.relevance_score = none ∧ scoreKey d = 0 := by
  injection h with h1
  subst h1
  intro d hd
  obtain ⟨r, _, hr⟩ := List.mem_filterMap.mp hd
  obtain ⟨c, _, hc⟩ := Option.map_eq_some'.mp hr
  subst hc
  exact ⟨rfl, rfl⟩

/-- Witness for the amended C3 at a concrete extraction. -/
theorem web_docs_unscored_witness :
    webDocT.relevance_score = none ∧ scoreKey webDocT = 0 :=
  web_docs_unscored [webResultT] (fun _ => .ok "page text") [webDocT] rfl
    webDocT (List.mem_singleton_self webDocT)

/-- C4 is false on the code: when the index succeeds but the web-search
collaborator raises, `retrieve` does NOT return database-only results —
it re-raises a hard error wrapping the web failure. -/
theorem web_failure_counterexample :
    retrieve (.ok [hitA])
        (.error "Error in search and extract: Error searching web: connection refused")
        true 5 =
      .error "Error retrieving documents: Error in search and extract: Error searching web: connection refused" ∧
    (retrieve (.ok [hitA])
        (.error "Error in search and extract: Error searching web: connection refused")
        true 5).toOption = none :=
  ⟨rfl, rfl⟩

/-- C4 amended: a web-search failure aborts `retrieve` with a hard
error (no degraded database-only result, no warning); only the per-URL
extraction failures inside `search_and_extract` are isolated — a result
whose extraction raises is dropped and the remaining items are exactly
those produced without it. -/
theorem web_failure_hard_error_and_per_url_isolation
    (hits : List Hit) (e : String) (limit : Nat)
    (pre post : List SearchResult) (r : SearchResult) (msg : String)
    (extract : SearchResult → Except String String)
    (hfail : extract r = .error msg) :
    retrieve (.ok hits) (.error e) true limit =
      .error ("Error retrieving documents: " ++ e) ∧
    search_and_extract (.ok (pre ++ r :: post)) extract =
      search_and_extract (.ok (pre ++ post)) extract := by
  refine ⟨rfl, ?_⟩
  have key : ∀ l : List SearchResult,
      (r :: l).filterMap (fun s => (extract s).toOption.map fun content =>
        mkWebDoc s.title s.link s.snippet content) =
      l.filterMap (fun s => (extract s).toOption.map fun content =>
        mkWebDoc s.title s.link s.snippet content) := by
    intro l
    refine List.filterMap_cons_none ?_
    show ((extract r).toOption.map fun content =>
      mkWebDoc r.title r.link r.snippet content) = none
    rw [hfail]
    rfl
  simp only [search_and_extract, List.filterMap_append, key]

/-- Witness for the amended C4 at a concrete failing extraction. -/
theorem web_failure_hard_error_witness :
    retrieve (.ok [hitA]) (.error "down") true 5 =
      .error ("Error retrieving documents: " ++ "down") ∧
    search_and_extract (.ok ([] ++ webResultT :: []))
        (fun _ => .error "boom") =
      search_and_extract (.ok ([] ++ [])) (fun _ => .error "boom") :=
  web_failure_hard_error_and_per_url_isolation [hitA] "down" 5 [] []
    webResultT "boom" (fun _ => .error "boom") rfl

/-- C5 is false on the code as to its `errors` clause: in a run whose
retrieval fails entirely, the final state has `documents == []` and the
downstream stages all executed, yet `errors` is EMPTY — the retrieval
message went to the research agent internal state, never to the
pipeline state. -/
theorem pipeline_retrieval_failure_counterexample :
    (runPipeline ocFail "graph neural networks").documents = [] ∧
    (runPipeline ocFail "graph neural networks").summaries = [] ∧
    (runPipeline ocFail "graph neural networks").errors = [] :=
  ⟨rfl, rfl, rfl⟩

/-- C5 amended: when retrieval fails entirely, the final state has
`documents == []`; summarize and evaluate produce their empty defaults
(`[]` and `{"evaluations": [], "average_scores": {}}`); synthesize and
write still execute without raising (their outputs are the usual
LLM-or-default values); but the pipeline `errors` list stays EMPTY: the
retrieval failure message is appended only to the research agent
internal error list and never reaches the pipeline state. -/
theorem pipeline_retrieval_failure_behavior (oc : Oracles) (q e : String) :
    (failedRun oc q e).documents = [] ∧
    (failedRun oc q e).summaries = [] ∧
    (failedRun oc q e).evaluations =
      some { evaluations := [], average_scores := none } ∧
    (failedRun oc q e).synthesis =
      some (cross_document_synthesis oc.synthRes) ∧
    (failedRun oc q e).report = some (writerProcess oc.writer q []) ∧
    (failedRun oc q e).errors = [] ∧
    (researchProcess (Except.error e)).2 = ["Error processing query: " ++ e] :=
  ⟨rfl, rfl, rfl, rfl, rfl, rfl, rfl⟩

/-- C9: each of the critic three component scores is clamped into
[0, 1] on a parsed response and defaults to 0 on any failure, so every
evaluation record carries component scores and an overall score (their
arithmetic mean) in [0, 1]. -/
theorem critic_scores_in_unit_interval (oc : CriticOracle) (docs : List Doc)
    (summaries : List SummaryEntry) :
    (∀ r : Except String ℚ, 0 ≤ clampScore r ∧ clampScore r ≤ 1) ∧
    (∀ msg : String, clampScore (Except.error msg) = 0) ∧
    ∀ ev ∈ (criticProcess oc docs summaries).evaluations,
      (0 ≤ ev.quality_score ∧ ev.quality_score ≤ 1) ∧
      (0 ≤ ev.relevance_score ∧ ev.relevance_score ≤ 1) ∧
      (0 ≤ ev.methodology_score ∧ ev.methodology_score ≤ 1) ∧
      (0 ≤ ev.overall_score ∧ ev.overall_score ≤ 1) := by
  refine ⟨fun r => ⟨clampScore_nonneg r, clampScore_le_one r⟩,
    fun _ => rfl, ?_⟩
  intro ev hev
  simp only [criticProcess, List.mem_map] at hev
  obtain ⟨p, _, hp⟩ := hev
  subst hp
  have hq0 := clampScore_nonneg (oc.quality p.1 p.2)
  have hq1 := clampScore_le_one (oc.quality p.1 p.2)
  have hr0 := clampScore_nonneg (oc.relevance p.1 p.2)
  have hr1 := clampScore_le_one (oc.relevance p.1 p.2)
  have hm0 := clampScore_nonneg (oc.methodology p.1)
  have hm1 := clampScore_le_one (oc.methodology p.1)
  refine ⟨⟨hq0, hq1⟩, ⟨hr0, hr1⟩, ⟨hm0, hm1⟩, ?_, ?_⟩
  · show 0 ≤ (clampScore (oc.quality p.1 p.2) +
      clampScore (oc.relevance p.1 p.2) +
      clampScore (oc.methodology p.1)) / 3
    positivity
  · show (clampScore (oc.quality p.1 p.2) +
      clampScore (oc.relevance p.1 p.2) +
      clampScore (oc.methodology p.1)) / 3 ≤ 1
    rw [div_le_one (by norm_num : (0 : ℚ) < 3)]
    linarith

/-- Witness for C9 at a concrete evaluation. -/
theorem critic_scores_in_unit_interval_witness :
    0 ≤ (mkEvalEntry ocW (docW, sumW)).overall_score ∧
      (mkEvalEntry ocW (docW, sumW)).overall_score ≤ 1 :=
  ((critic_scores_in_unit_interval ocW [docW] [sumW]).2.2
    (mkEvalEntry ocW (docW, sumW)) (List.mem_singleton_self _)).2.2.2

/-- C10: the critic pairs documents and summaries positionally,
producing exactly `min(len(documents), len(summaries))` evaluations, and
on an empty side returns `{"evaluations": [], "average_scores": {}}` —
the aggregate empty, not zero-filled. -/
theorem critic_pairing_and_empty_default (oc : CriticOracle)
    (docs : List Doc) (summaries : List SummaryEntry) :
    (criticProcess oc docs summaries).evaluations.length =
      min docs.length summaries.length ∧
    (docs = [] ∨ summaries = [] →
      criticProcess oc docs summaries =
        { evaluations := [], average_scores := none }) := by
  constructor
  · simp [criticProcess, List.length_zip]
  · rintro (rfl | rfl)
    · rfl
    · simp [criticProcess, List.zip_nil_right, calculate_average_scores]

/-- Witness for C10: a document with no summary yields the empty
result. -/
theorem critic_pairing_and_empty_default_witness :
    criticProcess ocW [docW] [] =
      { evaluations := [], average_scores := none } :=
  (critic_pairing_and_empty_default ocW [docW] []).2 (Or.inr rfl)

/-- Witness for C6: the document scoring exactly 0.5 is excluded. -/
theorem filter_by_relevance_spec_witness :
    docHalf ∉ filter_by_relevance [docHigh, docHalf] :=
  (filter_by_relevance_spec [docHigh, docHalf]).2.2.1 docHalf
    (List.mem_cons_of_mem docHigh (List.mem_singleton_self docHalf)) rfl

end ResearchPipeline
